import Mathlib

/-!
Verification of the frame-wise feature aggregation and scoring pipeline of
`src/MAIN.cjs` (Science-Fair-Music-Analysis).

Shallow embedding conventions:
* JavaScript numbers are modelled as exact rationals (`ℚ`).  JavaScript's
  `x / 0` produces `Infinity`/`NaN`; in this embedding division by zero
  follows Lean's convention (`x / 0 = 0`).  The only place this matters is
  the band-energy computation on an empty sub-slice (JS pushes `NaN`,
  the model pushes the junk value `0`); every theorem below that touches
  this spot only relies on *whether* a value is appended, never on the
  junk value itself.
* The external DSP primitives from essentia.js (Windowing, Spectrum, HFC,
  Centroid, ...) are out of scope per the spec and are modelled as an
  abstract `Analyzer` record of black-box functions; a per-feature
  computation that can throw is a function into `Option ℚ` (`none` = the
  exception that the surrounding `try { ... } catch (e) {}` swallows).
* `Array.prototype.push` on a per-feature array is list append; the
  `for (let i = 0; ...; i += hopSize)` loop is a fuel-indexed recursion
  (the fuel `L + 1` strictly dominates the number of iterations, since
  every iteration advances `i` by `2048 ≥ 1` while the guard requires
  `i < L - 4096 ≤ L`).
-/

/-- Result record of `calculateStats` (src/MAIN.cjs lines 179-186).  The
empty-series branch of the source also returns `std`/`median` slots, but no
call site reads them; the record models the two fields every caller uses. -/
structure Stats where
  mean : ℚ
  percentile90 : ℚ
  deriving Repr, DecidableEq

/-- `calculateStats` from src/MAIN.cjs lines 179-186: empty input gives
`{mean: 0, percentile90: 0}`; otherwise the mean is `sum / length` and
`percentile90` is the ascending-sorted list indexed at
`Math.floor(sorted.length * 0.9)` (exact arithmetic: `9 * length / 10` with
natural division).  The source's out-of-bounds access would yield
`undefined`; `getD ... 0` only differs from the source where the index is
out of bounds, which `calculateStats_spec` shows never happens. -/
def calculateStats (arr : List ℚ) : Stats :=
  if arr.length = 0 then { mean := 0, percentile90 := 0 }
  else
    { mean := arr.sum / (arr.length : ℚ)
      percentile90 :=
        (arr.mergeSort (fun a b => decide (a ≤ b))).getD (9 * arr.length / 10) 0 }

/-- One step of the frame loop head `for (let i = 0; i < audio.length -
frameSize; i += hopSize)` (src/MAIN.cjs line 44) with
`frameSize = 4096`, `hopSize = 2048`; `fuel` only forces termination. -/
def frameLoop (L : ℕ) : ℕ → ℕ → List ℕ
  | 0, _ => []
  | fuel + 1, i => if (i : ℤ) < (L : ℤ) - 4096 then i :: frameLoop L fuel (i + 2048) else []

/-- The list of frame start offsets the source's loop visits for a buffer of
length `L`.  Fuel `L + 1` is sufficient: the guard forces `i < L` and `i`
grows by `2048` per step. -/
def frameOffsets (L : ℕ) : List ℕ :=
  frameLoop L (L + 1) 0

/-- Modelled from the spec's words (for comparison with `frameOffsets`,
which is the source's loop): the spec and claim C4 say the loop visits the
offsets `i = 0, H, 2H, ...` while `i ≤ L - F`, i.e. with a non-strict
guard. -/
def specClaimedOffsets (L : ℕ) : List ℕ :=
  specClaimedLoop L (L + 1) 0
where
  specClaimedLoop (L : ℕ) : ℕ → ℕ → List ℕ
    | 0, _ => []
    | fuel + 1, i =>
      if (i : ℤ) ≤ (L : ℤ) - 4096 then i :: specClaimedLoop L fuel (i + 2048) else []

/-- `Math.round` on an exact rational: JavaScript rounds half toward `+∞`. -/
def jsRound (x : ℚ) : ℤ := ⌊x + 1 / 2⌋

/-- `String.prototype.repeat`: throws a `RangeError` (modelled as `none`)
when the count is negative. -/
def jsRepeat (c : Char) (n : ℤ) : Option (List Char) :=
  if n < 0 then none else some (List.replicate n.toNat c)

/-- `createBar` from src/MAIN.cjs lines 281-285:
`filled = Math.round(score / 5)`, `empty = 20 - filled`, then
`"#".repeat(filled) + "-".repeat(empty)`.  There is no clamping in the
source; a repeat count outside `[0, ∞)` throws, modelled by `none`. -/
def createBar (score : ℚ) : Option (List Char) := do
  let filled := jsRound (score / 5)
  let emptyCount := 20 - filled
  let hashes ← jsRepeat '#' filled
  let dashes ← jsRepeat '-' emptyCount
  pure (hashes ++ dashes)

section FrameIteratorLemmas

theorem frameLoop_mem {L : ℕ} :
    ∀ (fuel i j : ℕ), j ∈ frameLoop L fuel i ↔
      ∃ k, k < fuel ∧ j = i + 2048 * k ∧ (j : ℤ) < (L : ℤ) - 4096 := by
  intro fuel
  induction fuel with
  | zero => intro i j; simp [frameLoop]
  | succ n ih =>
    intro i j
    rw [frameLoop]
    split
    case isTrue h =>
      simp only [List.mem_cons, ih]
      constructor
      · rintro (rfl | ⟨k, hk, rfl, hlt⟩)
        · exact ⟨0, Nat.succ_pos n, by ring, h⟩
        · exact ⟨k + 1, by omega, by ring, hlt⟩
      · rintro ⟨k, hk, rfl, hlt⟩
        cases k with
        | zero => left; ring
        | succ m => right; exact ⟨m, by omega, by ring, hlt⟩
    case isFalse h =>
      simp only [List.not_mem_nil, false_iff]
      rintro ⟨k, hk, rfl, hlt⟩
      have hbase : (0 : ℤ) ≤ 2048 * (k : ℤ) := by positivity
      push_cast at hlt
      omega

theorem frameOffsets_mem {L j : ℕ} :
    j ∈ frameOffsets L ↔ (∃ k, j = 2048 * k) ∧ (j : ℤ) < (L : ℤ) - 4096 := by
  rw [frameOffsets, frameLoop_mem]
  constructor
  · rintro ⟨k, -, rfl, hlt⟩
    exact ⟨⟨k, by ring⟩, by simpa using hlt⟩
  · rintro ⟨⟨k, rfl⟩, hlt⟩
    refine ⟨k, ?_, by ring, hlt⟩
    have hkj : k ≤ 2048 * k := Nat.le_mul_of_pos_left k (by norm_num)
    have : (2048 * k : ℤ) < (L : ℤ) := by omega
    have : 2048 * k < L := by exact_mod_cast this
    omega

theorem frameLoop_sorted (L : ℕ) :
    ∀ (fuel i : ℕ), List.Sorted (· < ·) (frameLoop L fuel i) := by
  intro fuel
  induction fuel with
  | zero => intro i; simp [frameLoop]
  | succ n ih =>
    intro i
    rw [frameLoop]
    split
    · rw [List.sorted_cons]
      refine ⟨?_, ih (i + 2048)⟩
      intro b hb
      rw [frameLoop_mem] at hb
      obtain ⟨k, -, rfl, -⟩ := hb
      omega
    · simp

theorem frameOffsets_sorted (L : ℕ) : List.Sorted (· < ·) (frameOffsets L) :=
  frameLoop_sorted L (L + 1) 0

/-- The offset list is either empty or starts with offset `0`. -/
theorem frameOffsets_structure (L : ℕ) :
    frameOffsets L = [] ∨ ∃ t, frameOffsets L = 0 :: t := by
  rw [frameOffsets, frameLoop]
  split
  · exact Or.inr ⟨_, rfl⟩
  · exact Or.inl rfl

end FrameIteratorLemmas

/-- The external essentia.js collaborator (spec §6): a family of black-box
DSP functions.  `windowing`/`spectrum` are called outside any `try` block in
the source, so they are modelled as total; every per-feature computation sits
inside its own `try { ... } catch (e) {}` and is modelled as `Option`-valued
(`none` = it threw).  `dissonanceOfPeaks`/`inharmonicityOfPeaks` model the
`SpectralPeaks`-then-`Dissonance`/`Inharmonicity` composites that the source
runs inside a single `try`; `spectralPeakCount` models the parameterised
`SpectralPeaks` call followed by `.frequencies.size()`; `rollOff` bakes in
the fixed `0.85` threshold argument. -/
structure Analyzer where
  windowing : List ℚ → List ℚ
  spectrum : List ℚ → List ℚ
  hfc : List ℚ → Option ℚ
  centroid : List ℚ → Option ℚ
  spectralComplexity : List ℚ → Option ℚ
  dissonanceOfPeaks : List ℚ → Option ℚ
  pitchSalience : List ℚ → Option ℚ
  inharmonicityOfPeaks : List ℚ → Option ℚ
  entropy : List ℚ → Option ℚ
  rollOff : List ℚ → Option ℚ
  loudness : List ℚ → Option ℚ
  zeroCrossingRate : List ℚ → Option ℚ
  flux : List ℚ → List ℚ → Option ℚ
  flatness : List ℚ → Option ℚ
  spectralPeakCount : List ℚ → Option ℚ
  energy : List ℚ → Option ℚ
  dynamicComplexity : List ℚ → Option ℚ

/-- The seventeen per-feature accumulator arrays declared in
src/MAIN.cjs lines 26-42 (all initialised to `[]`). -/
structure SeriesData where
  hfcValues : List ℚ := []
  spectralCentroids : List ℚ := []
  spectralComplexities : List ℚ := []
  dissonances : List ℚ := []
  pitchSaliences : List ℚ := []
  inharmonicities : List ℚ := []
  spectralEntropies : List ℚ := []
  spectralRolloffs : List ℚ := []
  loudnesses : List ℚ := []
  zeroCrossingRates : List ℚ := []
  dynamicComplexities : List ℚ := []
  spectralFluxes : List ℚ := []
  lowFreqEnergies : List ℚ := []
  highFreqEnergies : List ℚ := []
  spectralFlatnesses : List ℚ := []
  spectralPeakCounts : List ℚ := []
  frameSilences : List ℚ := []
  deriving Repr, DecidableEq

/-- `try { ... arr.push(v) } catch (e) {}` on one array: append on success,
keep the array unchanged on failure. -/
def pushOpt (acc : List ℚ) (o : Option ℚ) : List ℚ :=
  match o with
  | some v => acc ++ [v]
  | none => acc

theorem pushOpt_eq_append (acc : List ℚ) (o : Option ℚ) :
    pushOpt acc o = acc ++ o.toList := by
  cases o <;> simp [pushOpt]

/-- `audio.slice(i, i + frameSize)` with `frameSize = 4096`. -/
def frameAt (audio : List ℚ) (i : ℕ) : List ℚ :=
  (audio.drop i).take 4096

/-- The spectrum the source derives from the frame at offset `i`:
`Spectrum(Windowing(frame).frame).spectrum` (src/MAIN.cjs lines 48-54; the
same pipeline is re-run for the previous frame in the flux block,
lines 116-124). -/
def spectrumAt (es : Analyzer) (audio : List ℚ) (i : ℕ) : List ℚ :=
  es.spectrum (es.windowing (frameAt audio i))

/-- The split/mean-square pair of the inline band-energy block
(src/MAIN.cjs lines 132-141): split index `Math.floor(length * 0.1)`
(exact: `length / 10` in ℕ), `reduce((a, b) => a + b * b, 0) / length`
on each slice.  On an empty sub-slice JavaScript produces `0 / 0 = NaN`;
the model's junk value for that division is `0`. -/
def bandSplit (spectrumArray : List ℚ) : ℚ × ℚ :=
  let splitPoint := spectrumArray.length / 10
  let lowFreqs := spectrumArray.take splitPoint
  let highFreqs := spectrumArray.drop splitPoint
  (((lowFreqs.map fun b => b * b).sum) / (lowFreqs.length : ℚ),
   ((highFreqs.map fun b => b * b).sum) / (highFreqs.length : ℚ))

/-- The whole `try` block around the band-energy computation
(src/MAIN.cjs lines 131-145).  No operation in the block can throw
(`Array.from`, `slice`, `reduce` with an initial value, division, `push`
are all total), so the result is always `some`: the `catch` is dead code. -/
def bandEnergyComputation (spectrumArray : List ℚ) : Option (ℚ × ℚ) :=
  some (bandSplit spectrumArray)

/-- The body of the frame loop (src/MAIN.cjs lines 44-171) for offset `i`:
each `try`-block pushes to exactly one accumulator array (the band-energy
block pushes to two), so the sequential pushes are a simultaneous record
update. -/
def collectStep (es : Analyzer) (sampleRate : ℚ) (audio : List ℚ)
    (acc : SeriesData) (i : ℕ) : SeriesData :=
  let frame := frameAt audio i
  let sp := spectrumAt es audio i
  { acc with
    hfcValues := pushOpt acc.hfcValues (es.hfc sp)
    spectralCentroids :=
      pushOpt acc.spectralCentroids ((es.centroid sp).map fun c => c * sampleRate / 2)
    spectralComplexities := pushOpt acc.spectralComplexities (es.spectralComplexity sp)
    dissonances := pushOpt acc.dissonances (es.dissonanceOfPeaks sp)
    pitchSaliences := pushOpt acc.pitchSaliences (es.pitchSalience sp)
    inharmonicities := pushOpt acc.inharmonicities (es.inharmonicityOfPeaks sp)
    spectralEntropies := pushOpt acc.spectralEntropies (es.entropy sp)
    spectralRolloffs :=
      pushOpt acc.spectralRolloffs ((es.rollOff sp).map fun r => r * sampleRate / 2)
    loudnesses := pushOpt acc.loudnesses (es.loudness frame)
    zeroCrossingRates := pushOpt acc.zeroCrossingRates (es.zeroCrossingRate frame)
    spectralFluxes :=
      if 0 < i then
        pushOpt acc.spectralFluxes (es.flux (spectrumAt es audio (i - 2048)) sp)
      else acc.spectralFluxes
    lowFreqEnergies :=
      pushOpt acc.lowFreqEnergies ((bandEnergyComputation sp).map Prod.fst)
    highFreqEnergies :=
      pushOpt acc.highFreqEnergies ((bandEnergyComputation sp).map Prod.snd)
    spectralFlatnesses := pushOpt acc.spectralFlatnesses (es.flatness sp)
    spectralPeakCounts := pushOpt acc.spectralPeakCounts (es.spectralPeakCount sp)
    frameSilences :=
      pushOpt acc.frameSilences
        ((es.energy frame).map fun en => if en < 1 / 1000 then (1 : ℚ) else 0) }

/-- The whole collection phase (src/MAIN.cjs lines 44-177): the frame loop
followed by the single whole-buffer `DynamicComplexity` push. -/
def collectFeatures (es : Analyzer) (sampleRate : ℚ) (audio : List ℚ) : SeriesData :=
  let s := (frameOffsets audio.length).foldl (collectStep es sampleRate audio) {}
  { s with dynamicComplexities := pushOpt s.dynamicComplexities (es.dynamicComplexity audio) }

theorem filterMap_cons_toList {α β : Type} (f : α → Option β) (a : α) (l : List α) :
    (a :: l).filterMap f = (f a).toList ++ l.filterMap f := by
  cases h : f a <;> simp [List.filterMap_cons, h]

/-- Fold characterisation of the frame loop: every accumulator array ends up
as its initial value followed by the `filterMap` of its own feature
computation over the offsets; the flux array only sees offsets with
`0 < i`, and `dynamicComplexities` is untouched by the loop. -/
theorem foldl_collectStep (es : Analyzer) (sampleRate : ℚ) (audio : List ℚ) :
    ∀ (l : List ℕ) (acc : SeriesData),
      l.foldl (collectStep es sampleRate audio) acc =
        { hfcValues := acc.hfcValues ++ l.filterMap fun i => es.hfc (spectrumAt es audio i)
          spectralCentroids := acc.spectralCentroids ++
            l.filterMap fun i => (es.centroid (spectrumAt es audio i)).map fun c => c * sampleRate / 2
          spectralComplexities := acc.spectralComplexities ++
            l.filterMap fun i => es.spectralComplexity (spectrumAt es audio i)
          dissonances := acc.dissonances ++
            l.filterMap fun i => es.dissonanceOfPeaks (spectrumAt es audio i)
          pitchSaliences := acc.pitchSaliences ++
            l.filterMap fun i => es.pitchSalience (spectrumAt es audio i)
          inharmonicities := acc.inharmonicities ++
            l.filterMap fun i => es.inharmonicityOfPeaks (spectrumAt es audio i)
          spectralEntropies := acc.spectralEntropies ++
            l.filterMap fun i => es.entropy (spectrumAt es audio i)
          spectralRolloffs := acc.spectralRolloffs ++
            l.filterMap fun i => (es.rollOff (spectrumAt es audio i)).map fun r => r * sampleRate / 2
          loudnesses := acc.loudnesses ++ l.filterMap fun i => es.loudness (frameAt audio i)
          zeroCrossingRates := acc.zeroCrossingRates ++
            l.filterMap fun i => es.zeroCrossingRate (frameAt audio i)
          dynamicComplexities := acc.dynamicComplexities
          spectralFluxes := acc.spectralFluxes ++
            (l.filter fun i => decide (0 < i)).filterMap fun i =>
              es.flux (spectrumAt es audio (i - 2048)) (spectrumAt es audio i)
          lowFreqEnergies := acc.lowFreqEnergies ++
            l.filterMap fun i => (bandEnergyComputation (spectrumAt es audio i)).map Prod.fst
          highFreqEnergies := acc.highFreqEnergies ++
            l.filterMap fun i => (bandEnergyComputation (spectrumAt es audio i)).map Prod.snd
          spectralFlatnesses := acc.spectralFlatnesses ++
            l.filterMap fun i => es.flatness (spectrumAt es audio i)
          spectralPeakCounts := acc.spectralPeakCounts ++
            l.filterMap fun i => es.spectralPeakCount (spectrumAt es audio i)
          frameSilences := acc.frameSilences ++
            l.filterMap fun i =>
              (es.energy (frameAt audio i)).map fun en => if en < 1 / 1000 then (1 : ℚ) else 0 } := by
  intro l
  induction l with
  | nil => intro acc; simp
  | cons i l ih =>
    intro acc
    rw [List.foldl_cons, ih]
    by_cases hi : 0 < i <;>
      simp [collectStep, pushOpt_eq_append, filterMap_cons_toList, List.filter_cons, hi,
        List.append_assoc]

/-- Closed form of `collectFeatures`: each per-feature series is exactly the
`filterMap` of its own feature computation over the visited frame offsets. -/
theorem collectFeatures_spec (es : Analyzer) (sampleRate : ℚ) (audio : List ℚ) :
    collectFeatures es sampleRate audio =
      { hfcValues := (frameOffsets audio.length).filterMap fun i => es.hfc (spectrumAt es audio i)
        spectralCentroids := (frameOffsets audio.length).filterMap fun i =>
          (es.centroid (spectrumAt es audio i)).map fun c => c * sampleRate / 2
        spectralComplexities := (frameOffsets audio.length).filterMap fun i =>
          es.spectralComplexity (spectrumAt es audio i)
        dissonances := (frameOffsets audio.length).filterMap fun i =>
          es.dissonanceOfPeaks (spectrumAt es audio i)
        pitchSaliences := (frameOffsets audio.length).filterMap fun i =>
          es.pitchSalience (spectrumAt es audio i)
        inharmonicities := (frameOffsets audio.length).filterMap fun i =>
          es.inharmonicityOfPeaks (spectrumAt es audio i)
        spectralEntropies := (frameOffsets audio.length).filterMap fun i =>
          es.entropy (spectrumAt es audio i)
        spectralRolloffs := (frameOffsets audio.length).filterMap fun i =>
          (es.rollOff (spectrumAt es audio i)).map fun r => r * sampleRate / 2
        loudnesses := (frameOffsets audio.length).filterMap fun i => es.loudness (frameAt audio i)
        zeroCrossingRates := (frameOffsets audio.length).filterMap fun i =>
          es.zeroCrossingRate (frameAt audio i)
        dynamicComplexities := (es.dynamicComplexity audio).toList
        spectralFluxes :=
          ((frameOffsets audio.length).filter fun i => decide (0 < i)).filterMap fun i =>
            es.flux (spectrumAt es audio (i - 2048)) (spectrumAt es audio i)
        lowFreqEnergies := (frameOffsets audio.length).filterMap fun i =>
          (bandEnergyComputation (spectrumAt es audio i)).map Prod.fst
        highFreqEnergies := (frameOffsets audio.length).filterMap fun i =>
          (bandEnergyComputation (spectrumAt es audio i)).map Prod.snd
        spectralFlatnesses := (frameOffsets audio.length).filterMap fun i =>
          es.flatness (spectrumAt es audio i)
        spectralPeakCounts := (frameOffsets audio.length).filterMap fun i =>
          es.spectralPeakCount (spectrumAt es audio i)
        frameSilences := (frameOffsets audio.length).filterMap fun i =>
          (es.energy (frameAt audio i)).map fun en => if en < 1 / 1000 then (1 : ℚ) else 0 } := by
  rw [collectFeatures, foldl_collectStep]
  simp [pushOpt_eq_append]

/-! ## Score Composer (src/MAIN.cjs lines 188-279)

Each `const` of the scoring section becomes one definition over the frozen
`SeriesData`; every `Math.min`/`Math.max` is `min`/`max` on ℚ and all the
decimal weight literals are exact rationals. -/

/-- `silenceRatio` (src/MAIN.cjs lines 203-206): fraction of silent frames,
`0` when no frame was analysed. -/
def silenceRatioOf (s : SeriesData) : ℚ :=
  if 0 < s.frameSilences.length then s.frameSilences.sum / (s.frameSilences.length : ℚ)
  else 0

/-- `normalizedHFC = Math.min(100, (hfcStats.mean / 10000) * 100)` (line 208). -/
def normalizedHFC (s : SeriesData) : ℚ :=
  min 100 ((calculateStats s.hfcValues).mean / 10000 * 100)

/-- `normalizedCentroid` (line 209). -/
def normalizedCentroid (s : SeriesData) : ℚ :=
  min 100 ((calculateStats s.spectralCentroids).mean / 10000 * 100)

/-- `normalizedComplexity` (line 210). -/
def normalizedComplexity (s : SeriesData) : ℚ :=
  min 100 ((calculateStats s.spectralComplexities).mean / 20 * 100)

/-- `normalizedDissonance` (line 211). -/
def normalizedDissonance (s : SeriesData) : ℚ :=
  min 100 ((calculateStats s.dissonances).mean * 200)

/-- `normalizedFlux` (line 212). -/
def normalizedFlux (s : SeriesData) : ℚ :=
  min 100 ((calculateStats s.spectralFluxes).mean * 1000)

/-- `normalizedDynamic` (lines 213-216): `50` when the whole-buffer
dynamic-complexity series is empty, else `Math.min(100, value * 10)` on its
single entry. -/
def normalizedDynamic (s : SeriesData) : ℚ :=
  match s.dynamicComplexities with
  | [] => 50
  | d :: _ => min 100 (d * 10)

/-- `aggressivenessScore` (lines 218-224). -/
def aggressivenessScore (s : SeriesData) : ℚ :=
  normalizedHFC s * 0.25 + normalizedCentroid s * 0.2 + normalizedComplexity s * 0.15 +
    normalizedDissonance s * 0.15 + normalizedFlux s * 0.15 + normalizedDynamic s * 0.1

/-- `normalizedSalience` (line 226). -/
def normalizedSalience (s : SeriesData) : ℚ :=
  min 100 ((calculateStats s.pitchSaliences).mean * 100)

/-- `normalizedHarmonicity` (lines 227-230). -/
def normalizedHarmonicity (s : SeriesData) : ℚ :=
  max 0 (100 - (calculateStats s.inharmonicities).mean * 1000)

/-- `normalizedTonalEntropy` (line 231). -/
def normalizedTonalEntropy (s : SeriesData) : ℚ :=
  max 0 (100 - (calculateStats s.spectralEntropies).mean * 12)

/-- `tonalityScore` (lines 233-237), including the trailing `+ 0.1`. -/
def tonalityScore (s : SeriesData) : ℚ :=
  normalizedSalience s * 0.35 + normalizedHarmonicity s * 0.35 +
    normalizedTonalEntropy s * 0.2 + 0.1

/-- `normalizedRolloff` (line 239). -/
def normalizedRolloff (s : SeriesData) : ℚ :=
  max 0 (100 - (calculateStats s.spectralRolloffs).mean / 100)

/-- `normalizedQuietness` (lines 240-243). -/
def normalizedQuietness (s : SeriesData) : ℚ :=
  max 0 (100 - min 100 ((calculateStats s.loudnesses).mean / 20))

/-- `normalizedSmoothness` (line 244). -/
def normalizedSmoothness (s : SeriesData) : ℚ :=
  max 0 (100 - (calculateStats s.zeroCrossingRates).mean * 200)

/-- `peakSoftness` (lines 245-248). -/
def peakSoftness (s : SeriesData) : ℚ :=
  max 0 (100 - min 100 ((calculateStats s.loudnesses).percentile90 / 30))

/-- `softnessScore` (lines 250-254). -/
def softnessScore (s : SeriesData) : ℚ :=
  normalizedRolloff s * 0.25 + normalizedQuietness s * 0.35 +
    normalizedSmoothness s * 0.2 + peakSoftness s * 0.2

/-- `highLowBalance` (lines 256-264): default `50`, overwritten by the
clamped high-frequency ratio only when `totalEnergy > 0`. -/
def highLowBalanceScore (s : SeriesData) : ℚ :=
  let totalEnergy := (calculateStats s.lowFreqEnergies).mean + (calculateStats s.highFreqEnergies).mean
  if 0 < totalEnergy then
    min 100 (max 0 ((calculateStats s.highFreqEnergies).mean / totalEnergy * 100))
  else 50

/-- `normalizedFlatness` (line 267). -/
def normalizedFlatness (s : SeriesData) : ℚ :=
  max 0 (100 - (calculateStats s.spectralFlatnesses).mean * 100)

/-- `normalizedPeakCount` (line 268). -/
def normalizedPeakCount (s : SeriesData) : ℚ :=
  min 100 ((calculateStats s.spectralPeakCounts).mean / 15 * 100)

/-- `normalizedActivity` (line 269). -/
def normalizedActivity (s : SeriesData) : ℚ :=
  max 0 (100 - silenceRatioOf s * 100)

/-- `normalizedComplexityDensity` (lines 270-273). -/
def normalizedComplexityDensity (s : SeriesData) : ℚ :=
  min 100 ((calculateStats s.spectralComplexities).mean / 10 * 100)

/-- `densityScore` (lines 275-279). -/
def densityScore (s : SeriesData) : ℚ :=
  normalizedPeakCount s * 0.35 + normalizedActivity s * 0.25 +
    normalizedComplexityDensity s * 0.25 + normalizedFlatness s * 0.15

/-- The five scores the run prints (src/MAIN.cjs lines 287-301). -/
structure Scores where
  aggressiveness : ℚ
  tonality : ℚ
  softness : ℚ
  highLowBalance : ℚ
  density : ℚ
  deriving Repr, DecidableEq

/-- The Score Composer: the whole scoring section as a pure function of the
frozen per-feature series. -/
def computeScores (s : SeriesData) : Scores :=
  { aggressiveness := aggressivenessScore s
    tonality := tonalityScore s
    softness := softnessScore s
    highLowBalance := highLowBalanceScore s
    density := densityScore s }

/-- Hypothesis of claim C1: every value in every per-feature series is
in range, i.e. non-negative (the normalisation constants then keep every
normalised contribution inside `[0, 100]`). -/
def NonnegSeries (s : SeriesData) : Prop :=
  ∀ x ∈ s.hfcValues ++ (s.spectralCentroids ++ (s.spectralComplexities ++ (s.dissonances ++
    (s.pitchSaliences ++ (s.inharmonicities ++ (s.spectralEntropies ++ (s.spectralRolloffs ++
    (s.loudnesses ++ (s.zeroCrossingRates ++ (s.dynamicComplexities ++ (s.spectralFluxes ++
    (s.lowFreqEnergies ++ (s.highFreqEnergies ++ (s.spectralFlatnesses ++
    (s.spectralPeakCounts ++ s.frameSilences))))))))))))))), (0 : ℚ) ≤ x

section BoundLemmas

theorem mean_nonneg {l : List ℚ} (h : ∀ x ∈ l, 0 ≤ x) :
    0 ≤ (calculateStats l).mean := by
  rw [calculateStats]
  split
  · exact le_refl 0
  · exact div_nonneg (List.sum_nonneg h) (by positivity)

theorem percentile90_nonneg {l : List ℚ} (h : ∀ x ∈ l, 0 ≤ x) :
    0 ≤ (calculateStats l).percentile90 := by
  rw [calculateStats]
  split
  · exact le_refl 0
  · rw [List.getD_eq_getElem?_getD]
    cases hg : (l.mergeSort fun a b => decide (a ≤ b))[9 * l.length / 10]? with
    | none => simp
    | some x =>
      have hx : x ∈ l.mergeSort fun a b => decide (a ≤ b) := by
        exact List.getElem?_mem hg
      rw [List.mem_mergeSort] at hx
      simpa [hg] using h x hx

theorem mean_le_of_le {l : List ℚ} {b : ℚ} (hne : l ≠ []) (h : ∀ x ∈ l, x ≤ b) :
    (calculateStats l).mean ≤ b := by
  have hlen : 0 < l.length := List.length_pos.mpr hne
  rw [calculateStats, if_neg (by omega)]
  have hsum : l.sum ≤ (l.length : ℚ) * b := by
    have := List.sum_le_card_nsmul l b h
    simpa [nsmul_eq_mul] using this
  have hq : (0 : ℚ) < (l.length : ℚ) := by exact_mod_cast hlen
  rw [div_le_iff₀ hq]
  linarith [hsum]

theorem le_mean_of_le {l : List ℚ} {a : ℚ} (hne : l ≠ []) (h : ∀ x ∈ l, a ≤ x) :
    a ≤ (calculateStats l).mean := by
  have hlen : 0 < l.length := List.length_pos.mpr hne
  rw [calculateStats, if_neg (by omega)]
  have hsum : (l.length : ℚ) * a ≤ l.sum := by
    have := List.card_nsmul_le_sum l a h
    simpa [nsmul_eq_mul] using this
  have hq : (0 : ℚ) < (l.length : ℚ) := by exact_mod_cast hlen
  rw [le_div_iff₀ hq]
  linarith [hsum]

theorem silenceRatioOf_nonneg {s : SeriesData} (h : ∀ x ∈ s.frameSilences, 0 ≤ x) :
    0 ≤ silenceRatioOf s := by
  rw [silenceRatioOf]
  split
  · exact div_nonneg (List.sum_nonneg h) (by positivity)
  · exact le_refl 0

theorem clampUp_bounds {x : ℚ} (hx : 0 ≤ x) :
    0 ≤ min 100 x ∧ min 100 x ≤ 100 :=
  ⟨le_min (by norm_num) hx, min_le_left _ _⟩

theorem clampDown_bounds {x : ℚ} (hx : 0 ≤ x) :
    0 ≤ max 0 (100 - x) ∧ max 0 (100 - x) ≤ 100 :=
  ⟨le_max_left _ _, max_le (by norm_num) (by linarith)⟩

theorem nonnegSeries_components {s : SeriesData} (h : NonnegSeries s) :
    (∀ x ∈ s.hfcValues, (0 : ℚ) ≤ x) ∧ (∀ x ∈ s.spectralCentroids, (0 : ℚ) ≤ x) ∧
    (∀ x ∈ s.spectralComplexities, (0 : ℚ) ≤ x) ∧ (∀ x ∈ s.dissonances, (0 : ℚ) ≤ x) ∧
    (∀ x ∈ s.pitchSaliences, (0 : ℚ) ≤ x) ∧ (∀ x ∈ s.inharmonicities, (0 : ℚ) ≤ x) ∧
    (∀ x ∈ s.spectralEntropies, (0 : ℚ) ≤ x) ∧ (∀ x ∈ s.spectralRolloffs, (0 : ℚ) ≤ x) ∧
    (∀ x ∈ s.loudnesses, (0 : ℚ) ≤ x) ∧ (∀ x ∈ s.zeroCrossingRates, (0 : ℚ) ≤ x) ∧
    (∀ x ∈ s.dynamicComplexities, (0 : ℚ) ≤ x) ∧ (∀ x ∈ s.spectralFluxes, (0 : ℚ) ≤ x) ∧
    (∀ x ∈ s.lowFreqEnergies, (0 : ℚ) ≤ x) ∧ (∀ x ∈ s.highFreqEnergies, (0 : ℚ) ≤ x) ∧
    (∀ x ∈ s.spectralFlatnesses, (0 : ℚ) ≤ x) ∧ (∀ x ∈ s.spectralPeakCounts, (0 : ℚ) ≤ x) ∧
    (∀ x ∈ s.frameSilences, (0 : ℚ) ≤ x) := by
  rw [NonnegSeries] at h
  refine ⟨?_, ?_, ?_, ?_, ?_, ?_, ?_, ?_, ?_, ?_, ?_, ?_, ?_, ?_, ?_, ?_, ?_⟩ <;>
    exact fun x hx => h x (by simp [hx])

theorem normalizedHFC_bounds {s : SeriesData} (h : ∀ x ∈ s.hfcValues, (0 : ℚ) ≤ x) :
    0 ≤ normalizedHFC s ∧ normalizedHFC s ≤ 100 :=
  clampUp_bounds (mul_nonneg (div_nonneg (mean_nonneg h) (by norm_num)) (by norm_num))

theorem normalizedCentroid_bounds {s : SeriesData} (h : ∀ x ∈ s.spectralCentroids, (0 : ℚ) ≤ x) :
    0 ≤ normalizedCentroid s ∧ normalizedCentroid s ≤ 100 :=
  clampUp_bounds (mul_nonneg (div_nonneg (mean_nonneg h) (by norm_num)) (by norm_num))

theorem normalizedComplexity_bounds {s : SeriesData}
    (h : ∀ x ∈ s.spectralComplexities, (0 : ℚ) ≤ x) :
    0 ≤ normalizedComplexity s ∧ normalizedComplexity s ≤ 100 :=
  clampUp_bounds (mul_nonneg (div_nonneg (mean_nonneg h) (by norm_num)) (by norm_num))

theorem normalizedDissonance_bounds {s : SeriesData} (h : ∀ x ∈ s.dissonances, (0 : ℚ) ≤ x) :
    0 ≤ normalizedDissonance s ∧ normalizedDissonance s ≤ 100 :=
  clampUp_bounds (mul_nonneg (mean_nonneg h) (by norm_num))

theorem normalizedFlux_bounds {s : SeriesData} (h : ∀ x ∈ s.spectralFluxes, (0 : ℚ) ≤ x) :
    0 ≤ normalizedFlux s ∧ normalizedFlux s ≤ 100 :=
  clampUp_bounds (mul_nonneg (mean_nonneg h) (by norm_num))

theorem normalizedDynamic_bounds {s : SeriesData}
    (h : ∀ x ∈ s.dynamicComplexities, (0 : ℚ) ≤ x) :
    0 ≤ normalizedDynamic s ∧ normalizedDynamic s ≤ 100 := by
  rw [normalizedDynamic]
  cases hd : s.dynamicComplexities with
  | nil => norm_num
  | cons d t =>
    have hd0 : (0 : ℚ) ≤ d := h d (by rw [hd]; exact List.mem_cons_self d t)
    exact clampUp_bounds (by linarith)

theorem normalizedSalience_bounds {s : SeriesData} (h : ∀ x ∈ s.pitchSaliences, (0 : ℚ) ≤ x) :
    0 ≤ normalizedSalience s ∧ normalizedSalience s ≤ 100 :=
  clampUp_bounds (mul_nonneg (mean_nonneg h) (by norm_num))

theorem normalizedHarmonicity_bounds {s : SeriesData}
    (h : ∀ x ∈ s.inharmonicities, (0 : ℚ) ≤ x) :
    0 ≤ normalizedHarmonicity s ∧ normalizedHarmonicity s ≤ 100 :=
  clampDown_bounds (mul_nonneg (mean_nonneg h) (by norm_num))

theorem normalizedTonalEntropy_bounds {s : SeriesData}
    (h : ∀ x ∈ s.spectralEntropies, (0 : ℚ) ≤ x) :
    0 ≤ normalizedTonalEntropy s ∧ normalizedTonalEntropy s ≤ 100 :=
  clampDown_bounds (mul_nonneg (mean_nonneg h) (by norm_num))

theorem normalizedRolloff_bounds {s : SeriesData} (h : ∀ x ∈ s.spectralRolloffs, (0 : ℚ) ≤ x) :
    0 ≤ normalizedRolloff s ∧ normalizedRolloff s ≤ 100 :=
  clampDown_bounds (div_nonneg (mean_nonneg h) (by norm_num))

theorem normalizedQuietness_bounds {s : SeriesData} (h : ∀ x ∈ s.loudnesses, (0 : ℚ) ≤ x) :
    0 ≤ normalizedQuietness s ∧ normalizedQuietness s ≤ 100 :=
  clampDown_bounds (le_min (by norm_num) (div_nonneg (mean_nonneg h) (by norm_num)))

theorem normalizedSmoothness_bounds {s : SeriesData}
    (h : ∀ x ∈ s.zeroCrossingRates, (0 : ℚ) ≤ x) :
    0 ≤ normalizedSmoothness s ∧ normalizedSmoothness s ≤ 100 :=
  clampDown_bounds (mul_nonneg (mean_nonneg h) (by norm_num))

theorem peakSoftness_bounds {s : SeriesData} (h : ∀ x ∈ s.loudnesses, (0 : ℚ) ≤ x) :
    0 ≤ peakSoftness s ∧ peakSoftness s ≤ 100 :=
  clampDown_bounds (le_min (by norm_num) (div_nonneg (percentile90_nonneg h) (by norm_num)))

theorem normalizedFlatness_bounds {s : SeriesData}
    (h : ∀ x ∈ s.spectralFlatnesses, (0 : ℚ) ≤ x) :
    0 ≤ normalizedFlatness s ∧ normalizedFlatness s ≤ 100 :=
  clampDown_bounds (mul_nonneg (mean_nonneg h) (by norm_num))

theorem normalizedPeakCount_bounds {s : SeriesData}
    (h : ∀ x ∈ s.spectralPeakCounts, (0 : ℚ) ≤ x) :
    0 ≤ normalizedPeakCount s ∧ normalizedPeakCount s ≤ 100 :=
  clampUp_bounds (mul_nonneg (div_nonneg (mean_nonneg h) (by norm_num)) (by norm_num))

theorem normalizedActivity_bounds {s : SeriesData} (h : ∀ x ∈ s.frameSilences, (0 : ℚ) ≤ x) :
    0 ≤ normalizedActivity s ∧ normalizedActivity s ≤ 100 :=
  clampDown_bounds (mul_nonneg (silenceRatioOf_nonneg h) (by norm_num))

theorem normalizedComplexityDensity_bounds {s : SeriesData}
    (h : ∀ x ∈ s.spectralComplexities, (0 : ℚ) ≤ x) :
    0 ≤ normalizedComplexityDensity s ∧ normalizedComplexityDensity s ≤ 100 :=
  clampUp_bounds (mul_nonneg (div_nonneg (mean_nonneg h) (by norm_num)) (by norm_num))

theorem highLowBalanceScore_bounds (s : SeriesData) :
    0 ≤ highLowBalanceScore s ∧ highLowBalanceScore s ≤ 100 := by
  rw [highLowBalanceScore]
  split
  · exact ⟨le_min (by norm_num) (le_max_left _ _), min_le_left _ _⟩
  · norm_num

end BoundLemmas

/-! ## Claim theorems -/

/-- Claim C1: for every run in which all per-feature series contain only
in-range (non-negative) values, each of the five scores computed by the
Score Composer lies in `[0, 100]`. -/
theorem claim1_scores_in_range (s : SeriesData) (h : NonnegSeries s) :
    (0 ≤ (computeScores s).aggressiveness ∧ (computeScores s).aggressiveness ≤ 100) ∧
    (0 ≤ (computeScores s).tonality ∧ (computeScores s).tonality ≤ 100) ∧
    (0 ≤ (computeScores s).softness ∧ (computeScores s).softness ≤ 100) ∧
    (0 ≤ (computeScores s).highLowBalance ∧ (computeScores s).highLowBalance ≤ 100) ∧
    (0 ≤ (computeScores s).density ∧ (computeScores s).density ≤ 100) := by
  obtain ⟨hhfc, hcen, hcom, hdis, hsal, hinh, hent, hrol, hlou, hzcr, hdyn, hflu,
    hlow, hhig, hfla, hpk, hsil⟩ := nonnegSeries_components h
  obtain ⟨a1l, a1u⟩ := normalizedHFC_bounds hhfc
  obtain ⟨a2l, a2u⟩ := normalizedCentroid_bounds hcen
  obtain ⟨a3l, a3u⟩ := normalizedComplexity_bounds hcom
  obtain ⟨a4l, a4u⟩ := normalizedDissonance_bounds hdis
  obtain ⟨a5l, a5u⟩ := normalizedFlux_bounds hflu
  obtain ⟨a6l, a6u⟩ := normalizedDynamic_bounds hdyn
  obtain ⟨t1l, t1u⟩ := normalizedSalience_bounds hsal
  obtain ⟨t2l, t2u⟩ := normalizedHarmonicity_bounds hinh
  obtain ⟨t3l, t3u⟩ := normalizedTonalEntropy_bounds hent
  obtain ⟨s1l, s1u⟩ := normalizedRolloff_bounds hrol
  obtain ⟨s2l, s2u⟩ := normalizedQuietness_bounds hlou
  obtain ⟨s3l, s3u⟩ := normalizedSmoothness_bounds hzcr
  obtain ⟨s4l, s4u⟩ := peakSoftness_bounds hlou
  obtain ⟨hbl, hbu⟩ := highLowBalanceScore_bounds s
  obtain ⟨d1l, d1u⟩ := normalizedPeakCount_bounds hpk
  obtain ⟨d2l, d2u⟩ := normalizedActivity_bounds hsil
  obtain ⟨d3l, d3u⟩ := normalizedComplexityDensity_bounds hcom
  obtain ⟨d4l, d4u⟩ := normalizedFlatness_bounds hfla
  simp only [computeScores, aggressivenessScore, tonalityScore, softnessScore, densityScore]
  norm_num
  refine ⟨⟨by linarith, by linarith⟩, ⟨by linarith, by linarith⟩,
    ⟨by linarith, by linarith⟩, ⟨hbl, hbu⟩, ⟨by linarith, by linarith⟩⟩

/-- The all-empty series record: what a run on a buffer shorter than one
frame produces. -/
def emptySeries : SeriesData := {}

/-- Witness for C1 at the all-empty series. -/
theorem claim1_witness :
    NonnegSeries emptySeries ∧
      ((0 ≤ (computeScores emptySeries).aggressiveness ∧
          (computeScores emptySeries).aggressiveness ≤ 100) ∧
        (0 ≤ (computeScores emptySeries).tonality ∧ (computeScores emptySeries).tonality ≤ 100) ∧
        (0 ≤ (computeScores emptySeries).softness ∧ (computeScores emptySeries).softness ≤ 100) ∧
        (0 ≤ (computeScores emptySeries).highLowBalance ∧
          (computeScores emptySeries).highLowBalance ≤ 100) ∧
        (0 ≤ (computeScores emptySeries).density ∧ (computeScores emptySeries).density ≤ 100)) :=
  ⟨by intro x hx; simp [emptySeries] at hx,
   claim1_scores_in_range emptySeries (by intro x hx; simp [emptySeries] at hx)⟩

/-- Claim C2: `calculateStats` maps the empty series to
`{mean: 0, percentile90: 0}`; on a non-empty series it returns the
arithmetic mean (hence a value between any lower and any upper bound of the
series, in particular between its minimum and maximum) and the entry of the
ascending-sorted series at index `⌊0.9 · N⌋` clamped to `N - 1` (the clamp
is inert: `⌊0.9 · N⌋ ≤ N - 1` already holds for every `N ≥ 1`, so the
source's unclamped access agrees with the claim's clamped one). -/
theorem claim2_calculateStats_spec :
    calculateStats [] = { mean := 0, percentile90 := 0 } ∧
    ∀ arr : List ℚ, arr ≠ [] →
      (calculateStats arr).mean = arr.sum / (arr.length : ℚ) ∧
      (∀ a b : ℚ, (∀ x ∈ arr, a ≤ x ∧ x ≤ b) →
        a ≤ (calculateStats arr).mean ∧ (calculateStats arr).mean ≤ b) ∧
      (calculateStats arr).percentile90 =
        (arr.mergeSort fun x y => decide (x ≤ y)).getD
          (min (9 * arr.length / 10) (arr.length - 1)) 0 := by
  refine ⟨by simp [calculateStats], ?_⟩
  intro arr hne
  have hlen : 0 < arr.length := List.length_pos.mpr hne
  refine ⟨?_, ?_, ?_⟩
  · rw [calculateStats, if_neg (by omega)]
  · intro a b hab
    exact ⟨le_mean_of_le hne fun x hx => (hab x hx).1,
      mean_le_of_le hne fun x hx => (hab x hx).2⟩
  · have hidx : min (9 * arr.length / 10) (arr.length - 1) = 9 * arr.length / 10 := by
      apply min_eq_left
      omega
    rw [hidx, calculateStats, if_neg (by omega)]

/-- Witness for C2 on the series `[3, 1, 2]`: mean `2`, sorted `[1, 2, 3]`,
`⌊0.9 · 3⌋ = 2`, percentile90 `3`. -/
theorem claim2_witness :
    (calculateStats [3, 1, 2]).mean = ([3, 1, 2] : List ℚ).sum / (([3, 1, 2] : List ℚ).length : ℚ) ∧
    ((1 : ℚ) ≤ (calculateStats [3, 1, 2]).mean ∧ (calculateStats [3, 1, 2]).mean ≤ 3) ∧
    (calculateStats [3, 1, 2]).percentile90 =
      (([3, 1, 2] : List ℚ).mergeSort fun x y => decide (x ≤ y)).getD
        (min (9 * ([3, 1, 2] : List ℚ).length / 10) (([3, 1, 2] : List ℚ).length - 1)) 0 := by
  obtain ⟨h1, h2, h3⟩ := claim2_calculateStats_spec.2 [3, 1, 2] (by decide)
  exact ⟨h1, h2 1 3 (by decide), h3⟩

theorem filterMap_some_eq_map {α β : Type} (f : α → β) (l : List α) :
    (l.filterMap fun a => some (f a)) = l.map f := by
  induction l with
  | nil => rfl
  | cons a l ih => simp [List.filterMap_cons, ih]

/-- Claim C3 (per-feature fault isolation): for every analyzer, sample rate
and buffer, each per-feature series of the Feature Collector is exactly the
`filterMap` of *its own* feature computation over the visited frame offsets
(flux over the offsets with `0 < i` only, dynamic complexity once over the
whole buffer).  Hence if one feature computation fails (`none`) at one
frame, no value is appended to its series for that frame, every other
feature's series — each determined solely by its own computation — is
unaffected, and the loop and run still produce the complete result (the
collector is a total function). -/
theorem claim3_fault_isolation (es : Analyzer) (sampleRate : ℚ) (audio : List ℚ) :
    (collectFeatures es sampleRate audio).hfcValues =
      ((frameOffsets audio.length).filterMap fun i => es.hfc (spectrumAt es audio i)) ∧
    (collectFeatures es sampleRate audio).spectralCentroids =
      ((frameOffsets audio.length).filterMap fun i =>
        (es.centroid (spectrumAt es audio i)).map fun c => c * sampleRate / 2) ∧
    (collectFeatures es sampleRate audio).spectralComplexities =
      ((frameOffsets audio.length).filterMap fun i =>
        es.spectralComplexity (spectrumAt es audio i)) ∧
    (collectFeatures es sampleRate audio).dissonances =
      ((frameOffsets audio.length).filterMap fun i =>
        es.dissonanceOfPeaks (spectrumAt es audio i)) ∧
    (collectFeatures es sampleRate audio).pitchSaliences =
      ((frameOffsets audio.length).filterMap fun i => es.pitchSalience (spectrumAt es audio i)) ∧
    (collectFeatures es sampleRate audio).inharmonicities =
      ((frameOffsets audio.length).filterMap fun i =>
        es.inharmonicityOfPeaks (spectrumAt es audio i)) ∧
    (collectFeatures es sampleRate audio).spectralEntropies =
      ((frameOffsets audio.length).filterMap fun i => es.entropy (spectrumAt es audio i)) ∧
    (collectFeatures es sampleRate audio).spectralRolloffs =
      ((frameOffsets audio.length).filterMap fun i =>
        (es.rollOff (spectrumAt es audio i)).map fun r => r * sampleRate / 2) ∧
    (collectFeatures es sampleRate audio).loudnesses =
      ((frameOffsets audio.length).filterMap fun i => es.loudness (frameAt audio i)) ∧
    (collectFeatures es sampleRate audio).zeroCrossingRates =
      ((frameOffsets audio.length).filterMap fun i => es.zeroCrossingRate (frameAt audio i)) ∧
    (collectFeatures es sampleRate audio).spectralFluxes =
      (((frameOffsets audio.length).filter fun i => decide (0 < i)).filterMap fun i =>
        es.flux (spectrumAt es audio (i - 2048)) (spectrumAt es audio i)) ∧
    (collectFeatures es sampleRate audio).lowFreqEnergies =
      ((frameOffsets audio.length).filterMap fun i =>
        (bandEnergyComputation (spectrumAt es audio i)).map Prod.fst) ∧
    (collectFeatures es sampleRate audio).highFreqEnergies =
      ((frameOffsets audio.length).filterMap fun i =>
        (bandEnergyComputation (spectrumAt es audio i)).map Prod.snd) ∧
    (collectFeatures es sampleRate audio).spectralFlatnesses =
      ((frameOffsets audio.length).filterMap fun i => es.flatness (spectrumAt es audio i)) ∧
    (collectFeatures es sampleRate audio).spectralPeakCounts =
      ((frameOffsets audio.length).filterMap fun i => es.spectralPeakCount (spectrumAt es audio i)) ∧
    (collectFeatures es sampleRate audio).frameSilences =
      ((frameOffsets audio.length).filterMap fun i =>
        (es.energy (frameAt audio i)).map fun en => if en < 1 / 1000 then (1 : ℚ) else 0) ∧
    (collectFeatures es sampleRate audio).dynamicComplexities =
      (es.dynamicComplexity audio).toList := by
  rw [collectFeatures_spec]
  exact ⟨rfl, rfl, rfl, rfl, rfl, rfl, rfl, rfl, rfl, rfl, rfl, rfl, rfl, rfl, rfl, rfl, rfl⟩

/-- Claim C8: the flux feature is never computed for the first frame offset
`i = 0`: the flux series is the `filterMap` of the flux computation over
the offsets with `0 < i` only — each value computed from the spectrum of
the previous frame at offset `i - 2048`, re-derived from the raw
samples — so its length is at most the total frame count minus one. -/
theorem claim8_flux_skips_first_frame (es : Analyzer) (sampleRate : ℚ) (audio : List ℚ) :
    (collectFeatures es sampleRate audio).spectralFluxes =
      (((frameOffsets audio.length).filter fun i => decide (0 < i)).filterMap fun i =>
        es.flux (spectrumAt es audio (i - 2048)) (spectrumAt es audio i)) ∧
    (collectFeatures es sampleRate audio).spectralFluxes.length ≤
      (frameOffsets audio.length).length - 1 := by
  have hchar : (collectFeatures es sampleRate audio).spectralFluxes =
      (((frameOffsets audio.length).filter fun i => decide (0 < i)).filterMap fun i =>
        es.flux (spectrumAt es audio (i - 2048)) (spectrumAt es audio i)) := by
    rw [collectFeatures_spec]
  refine ⟨hchar, ?_⟩
  rw [hchar]
  rcases frameOffsets_structure audio.length with h0 | ⟨t, h0⟩
  · rw [h0]
    simp
  · rw [h0]
    have hfil : ((0 :: t).filter fun i => decide (0 < i)) = t.filter fun i => decide (0 < i) := by
      simp [List.filter_cons]
    rw [hfil]
    calc ((t.filter fun i => decide (0 < i)).filterMap fun i =>
            es.flux (spectrumAt es audio (i - 2048)) (spectrumAt es audio i)).length
        ≤ (t.filter fun i => decide (0 < i)).length := List.length_filterMap_le _ _
      _ ≤ t.length := List.length_filter_le _ _
      _ = (0 :: t).length - 1 := by simp

theorem collectLow_eq_map (es : Analyzer) (sampleRate : ℚ) (audio : List ℚ) :
    (collectFeatures es sampleRate audio).lowFreqEnergies =
      ((frameOffsets audio.length).map fun i => (bandSplit (spectrumAt es audio i)).1) := by
  rw [collectFeatures_spec]
  simp only [bandEnergyComputation, Option.map_some']
  exact filterMap_some_eq_map _ _

theorem collectHigh_eq_map (es : Analyzer) (sampleRate : ℚ) (audio : List ℚ) :
    (collectFeatures es sampleRate audio).highFreqEnergies =
      ((frameOffsets audio.length).map fun i => (bandSplit (spectrumAt es audio i)).2) := by
  rw [collectFeatures_spec]
  simp only [bandEnergyComputation, Option.map_some']
  exact filterMap_some_eq_map _ _

/-- Claim C10: the low-band and high-band energy series are appended to
only together, in lockstep: each is the image of the per-frame band-split
of the same frame's spectrum over the same offset list, so they always have
equal length and position-wise entries coming from the same frame. -/
theorem claim10_band_series_lockstep (es : Analyzer) (sampleRate : ℚ) (audio : List ℚ) :
    (collectFeatures es sampleRate audio).lowFreqEnergies =
      ((frameOffsets audio.length).map fun i => (bandSplit (spectrumAt es audio i)).1) ∧
    (collectFeatures es sampleRate audio).highFreqEnergies =
      ((frameOffsets audio.length).map fun i => (bandSplit (spectrumAt es audio i)).2) ∧
    (collectFeatures es sampleRate audio).lowFreqEnergies.length =
      (collectFeatures es sampleRate audio).highFreqEnergies.length := by
  refine ⟨collectLow_eq_map es sampleRate audio, collectHigh_eq_map es sampleRate audio, ?_⟩
  rw [collectLow_eq_map, collectHigh_eq_map]
  simp

/-- Claim C6 (amended): the band-energy computation splits the spectrum at
index `⌊0.1 · length⌋` and appends the mean squared value over `[0, split)`
to the low-band series and over `[split, end)` to the high-band series —
but it never fails: no operation in its `try` block can throw, so even when
a sub-slice is empty the `0 / 0` mean (JavaScript `NaN`, junk value `0` in
this exact-arithmetic model) is still computed and a value is appended to
both series at every frame. -/
theorem claim6_band_energy_amended :
    (∀ sp : List ℚ,
      bandEnergyComputation sp =
        some (((sp.take (sp.length / 10)).map fun b => b * b).sum /
                ((sp.take (sp.length / 10)).length : ℚ),
              ((sp.drop (sp.length / 10)).map fun b => b * b).sum /
                ((sp.drop (sp.length / 10)).length : ℚ))) ∧
    (∀ (es : Analyzer) (sampleRate : ℚ) (audio : List ℚ),
      (collectFeatures es sampleRate audio).lowFreqEnergies.length =
          (frameOffsets audio.length).length ∧
        (collectFeatures es sampleRate audio).highFreqEnergies.length =
          (frameOffsets audio.length).length) := by
  constructor
  · intro sp
    rfl
  · intro es sampleRate audio
    rw [collectFeatures_spec]
    constructor <;>
      (simp only [bandEnergyComputation, Option.map_some', filterMap_some_eq_map]; simp)

/-- An analyzer whose spectrum is the one-bin list `[1]` and whose
per-feature computations all throw: it drives the frame loop into the
band-energy block with an empty low sub-slice. -/
def anEx : Analyzer where
  windowing := id
  spectrum := fun _ => [1]
  hfc := fun _ => none
  centroid := fun _ => none
  spectralComplexity := fun _ => none
  dissonanceOfPeaks := fun _ => none
  pitchSalience := fun _ => none
  inharmonicityOfPeaks := fun _ => none
  entropy := fun _ => none
  rollOff := fun _ => none
  loudness := fun _ => none
  zeroCrossingRate := fun _ => none
  flux := fun _ _ => none
  flatness := fun _ => none
  spectralPeakCount := fun _ => none
  energy := fun _ => none
  dynamicComplexity := fun _ => none

/-- A 4097-sample zero buffer: exactly one frame offset (`0`). -/
def audioEx : List ℚ := List.replicate 4097 0

/-- Counterexample to C6 as stated: at the single frame of `audioEx` the
spectrum is `[1]`, the split index is `⌊0.1 · 1⌋ = 0`, the low sub-slice is
empty — yet the computation does not fail: one value is appended to the
low-band series and one to the high-band series (the claim requires that
neither series receive a value). -/
theorem claim6_counterexample :
    (spectrumAt anEx audioEx 0).take ((spectrumAt anEx audioEx 0).length / 10) = [] ∧
    (collectFeatures anEx 1 audioEx).lowFreqEnergies.length = 1 ∧
    (collectFeatures anEx 1 audioEx).highFreqEnergies.length = 1 := by
  have hlen : audioEx.length = 4097 := by
    unfold audioEx
    rw [List.length_replicate]
  have hoff : frameOffsets audioEx.length = [0] := by
    rw [hlen]
    decide
  refine ⟨rfl, ?_, ?_⟩ <;>
    · rw [collectFeatures_spec, hoff]
      simp [bandEnergyComputation]

/-- Claim C4 (amended): the frame loop visits, in increasing order, exactly
the multiples of the hop size `2048` that satisfy the *strict* guard
`i < L - 4096` (the source's `i < audio.length - frameSize`), so it visits
no offsets whenever `L ≤ 4096` (not only `L < 4096`), and a buffer of
length `10000` yields exactly the offsets `[0, 2048, 4096]`. -/
theorem claim4_frame_iterator_amended :
    (∀ L j : ℕ, j ∈ frameOffsets L ↔ (∃ k, j = 2048 * k) ∧ (j : ℤ) < (L : ℤ) - 4096) ∧
    (∀ L : ℕ, List.Sorted (· < ·) (frameOffsets L)) ∧
    (∀ L : ℕ, L ≤ 4096 → frameOffsets L = []) ∧
    frameOffsets 10000 = [0, 2048, 4096] := by
  refine ⟨fun L j => frameOffsets_mem, frameOffsets_sorted, ?_, by decide⟩
  intro L hL
  rw [List.eq_nil_iff_forall_not_mem]
  intro j hj
  rw [frameOffsets_mem] at hj
  obtain ⟨-, hlt⟩ := hj
  omega

/-- Counterexample to C4 as stated: the claim's non-strict guard
`i ≤ L - F` admits offset `0` for a buffer of exactly one frame
(`L = 4096`), but the source's strict guard `i < L - F` visits no offset at
all there. -/
theorem claim4_counterexample :
    specClaimedOffsets 4096 = [0] ∧ frameOffsets 4096 = [] := by
  constructor <;> decide

/-- Witness for C4 at `L = 100 ≤ 4096`: no offsets. -/
theorem claim4_witness : 100 ≤ 4096 ∧ frameOffsets 100 = [] :=
  ⟨by norm_num, claim4_frame_iterator_amended.2.2.1 100 (by norm_num)⟩

/-- Claim C5 (amended): for every score whose rounded fill count
`Math.round(score / 5)` lies in `[0, 20]` — in particular every score in
`[0, 100]` — `createBar` produces `round(score/5)` `'#'` characters
followed by `20 - round(score/5)` `'-'` characters, a string of exactly
20 characters.  But the source performs no clamping: when the fill count
falls outside `[0, 20]` one of the two `repeat` counts is negative and the
renderer throws a `RangeError` (`none`) instead of producing a bar. -/
theorem claim5_createBar_amended :
    ∀ score : ℚ,
      (0 ≤ jsRound (score / 5) → jsRound (score / 5) ≤ 20 →
        createBar score =
          some (List.replicate (jsRound (score / 5)).toNat '#' ++
            List.replicate (20 - (jsRound (score / 5)).toNat) '-') ∧
        ∀ l, createBar score = some l → l.length = 20) ∧
      (0 ≤ score → score ≤ 100 → 0 ≤ jsRound (score / 5) ∧ jsRound (score / 5) ≤ 20) ∧
      (jsRound (score / 5) < 0 ∨ 20 < jsRound (score / 5) → createBar score = none) := by
  intro score
  refine ⟨?_, ?_, ?_⟩
  · intro hf0 hf20
    have h1 : ¬jsRound (score / 5) < 0 := not_lt.mpr hf0
    have h2 : ¬20 - jsRound (score / 5) < 0 := by omega
    have htn : (20 - jsRound (score / 5)).toNat = 20 - (jsRound (score / 5)).toNat := by omega
    constructor
    · simp [createBar, jsRepeat, h1, h2, htn]
    · intro l hl
      simp [createBar, jsRepeat, h1, h2] at hl
      rw [← hl]
      simp
      omega
  · intro h0 h100
    have hdiv0 : (0 : ℚ) ≤ score / 5 := div_nonneg h0 (by norm_num)
    have hdiv20 : score / 5 ≤ 20 := by
      rw [div_le_iff₀ (by norm_num : (0 : ℚ) < 5)]
      linarith
    constructor
    · rw [jsRound]
      exact Int.le_floor.mpr (by push_cast; linarith)
    · rw [jsRound]
      have hlt : ⌊score / 5 + 1 / 2⌋ < 21 := Int.floor_lt.mpr (by push_cast; linarith)
      omega
  · intro h
    rcases h with hneg | hbig
    · simp [createBar, jsRepeat, hneg]
    · have h1 : ¬jsRound (score / 5) < 0 := by omega
      have h2 : 20 - jsRound (score / 5) < 0 := by omega
      simp [createBar, jsRepeat, h1, h2]

/-- Counterexample to C5 as stated: the claim says out-of-range scores are
tolerated by clamping, but `createBar 105` computes fill count `21` and
asks for `"-".repeat(-1)`, and `createBar (-3)` asks for `"#".repeat(-1)`:
both throw instead of rendering any bar. -/
theorem claim5_counterexample : createBar 105 = none ∧ createBar (-3) = none := by
  have h105 : jsRound ((105 : ℚ) / 5) = 21 := by
    rw [jsRound]
    norm_num
  have hm3 : jsRound ((-3 : ℚ) / 5) = -1 := by
    rw [jsRound]
    norm_num
  constructor
  · simp [createBar, jsRepeat, h105]
  · simp [createBar, jsRepeat, hm3]

/-- Witness for C5 at scores `47` (in `[0, 100]`: `round(47/5) = 9` hashes,
`11` dashes) and `101` (outside `[0, 100]` but with fill count
`round(101/5) = 20` still in `[0, 20]`: `20` hashes, `0` dashes); both bars
have exactly 20 characters. -/
theorem claim5_witness :
    (createBar 47 =
        some (List.replicate (jsRound ((47 : ℚ) / 5)).toNat '#' ++
          List.replicate (20 - (jsRound ((47 : ℚ) / 5)).toNat) '-') ∧
      ∀ l, createBar 47 = some l → l.length = 20) ∧
    (createBar 101 =
        some (List.replicate (jsRound ((101 : ℚ) / 5)).toNat '#' ++
          List.replicate (20 - (jsRound ((101 : ℚ) / 5)).toNat) '-') ∧
      ∀ l, createBar 101 = some l → l.length = 20) :=
  ⟨(claim5_createBar_amended 47).1
      ((claim5_createBar_amended 47).2.1 (by norm_num) (by norm_num)).1
      ((claim5_createBar_amended 47).2.1 (by norm_num) (by norm_num)).2,
   (claim5_createBar_amended 101).1 (by rw [jsRound]; norm_num) (by rw [jsRound]; norm_num)⟩

/-- Claim C7 (amended): the tonality score equals exactly
`0.35·min(100, salienceMean·100) + 0.35·max(0, 100 - inharmonicityMean·1000)
+ 0.20·max(0, 100 - entropyMean·12) + 0.1`, including the fixed `+0.1`
additive offset — so for any in-range input tonality is never `0`; the
all-zero input yields tonality `55.1` (the harmonicity and entropy terms
contribute `35 + 20`, the salience term `0`). -/
theorem claim7_tonality_formula :
    (∀ s : SeriesData,
      (computeScores s).tonality =
        0.35 * min 100 ((calculateStats s.pitchSaliences).mean * 100) +
          0.35 * max 0 (100 - (calculateStats s.inharmonicities).mean * 1000) +
          0.2 * max 0 (100 - (calculateStats s.spectralEntropies).mean * 12) + 0.1) ∧
    (∀ s : SeriesData, NonnegSeries s → (computeScores s).tonality ≠ 0) := by
  constructor
  · intro s
    simp only [computeScores, tonalityScore, normalizedSalience, normalizedHarmonicity,
      normalizedTonalEntropy]
    ring
  · intro s h
    obtain ⟨-, -, -, -, hsal, hinh, hent, -⟩ := nonnegSeries_components h
    have h1 := (normalizedSalience_bounds hsal).1
    have h2 := (normalizedHarmonicity_bounds hinh).1
    have h3 := (normalizedTonalEntropy_bounds hent).1
    simp only [computeScores, tonalityScore]
    have hpos : (0 : ℚ) <
        normalizedSalience s * 0.35 + normalizedHarmonicity s * 0.35 +
          normalizedTonalEntropy s * 0.2 + 0.1 := by
      nlinarith
    exact hpos.ne'

/-- All-zero input: every per-feature series is the one-element zero
series. -/
def zeroSeries : SeriesData where
  hfcValues := [0]
  spectralCentroids := [0]
  spectralComplexities := [0]
  dissonances := [0]
  pitchSaliences := [0]
  inharmonicities := [0]
  spectralEntropies := [0]
  spectralRolloffs := [0]
  loudnesses := [0]
  zeroCrossingRates := [0]
  dynamicComplexities := [0]
  spectralFluxes := [0]
  lowFreqEnergies := [0]
  highFreqEnergies := [0]
  spectralFlatnesses := [0]
  spectralPeakCounts := [0]
  frameSilences := [0]

/-- Counterexample to C7's parenthetical as stated: the all-zero input
yields tonality `55.1` (= `0.35·0 + 0.35·100 + 0.20·100 + 0.1`), not the
claimed `70.1`. -/
theorem claim7_counterexample :
    (computeScores zeroSeries).tonality = 551 / 10 ∧ (551 : ℚ) / 10 ≠ 701 / 10 := by
  constructor
  · have hmean : calculateStats [0] = { mean := 0, percentile90 := 0 } := by
      rw [calculateStats]
      norm_num
    simp only [computeScores, tonalityScore, normalizedSalience, normalizedHarmonicity,
      normalizedTonalEntropy, zeroSeries, hmean]
    norm_num
  · norm_num

/-- Witness for C7's never-zero part at the all-zero series. -/
theorem claim7_witness :
    NonnegSeries zeroSeries ∧ (computeScores zeroSeries).tonality ≠ 0 :=
  ⟨by intro x hx; simp [zeroSeries] at hx; simp [hx],
   claim7_tonality_formula.2 zeroSeries (by intro x hx; simp [zeroSeries] at hx; simp [hx])⟩

theorem bandSplit_fst_nonneg (sp : List ℚ) : 0 ≤ (bandSplit sp).1 := by
  rw [bandSplit]
  exact div_nonneg
    (List.sum_nonneg fun x hx => by
      obtain ⟨b, -, rfl⟩ := List.mem_map.mp hx
      exact mul_self_nonneg b)
    (by positivity)

theorem bandSplit_snd_nonneg (sp : List ℚ) : 0 ≤ (bandSplit sp).2 := by
  rw [bandSplit]
  exact div_nonneg
    (List.sum_nonneg fun x hx => by
      obtain ⟨b, -, rfl⟩ := List.mem_map.mp hx
      exact mul_self_nonneg b)
    (by positivity)

/-- Claim C9: the highLowBalance score is exactly `50` whenever
`lowEnergyMean + highEnergyMean = 0`, and otherwise (for the non-negative
means this pipeline produces — the last conjunct shows every collected
band-energy value is non-negative) equals
`highEnergyMean / (lowEnergyMean + highEnergyMean) · 100` clamped into
`[0, 100]`. -/
theorem claim9_highLowBalance (s : SeriesData) :
    ((calculateStats s.lowFreqEnergies).mean + (calculateStats s.highFreqEnergies).mean = 0 →
      (computeScores s).highLowBalance = 50) ∧
    (0 ≤ (calculateStats s.lowFreqEnergies).mean →
      0 ≤ (calculateStats s.highFreqEnergies).mean →
      (calculateStats s.lowFreqEnergies).mean + (calculateStats s.highFreqEnergies).mean ≠ 0 →
      (computeScores s).highLowBalance =
        min 100 (max 0 ((calculateStats s.highFreqEnergies).mean /
          ((calculateStats s.lowFreqEnergies).mean +
            (calculateStats s.highFreqEnergies).mean) * 100))) ∧
    (∀ (es : Analyzer) (sampleRate : ℚ) (audio : List ℚ),
      (∀ x ∈ (collectFeatures es sampleRate audio).lowFreqEnergies, (0 : ℚ) ≤ x) ∧
      (∀ x ∈ (collectFeatures es sampleRate audio).highFreqEnergies, (0 : ℚ) ≤ x)) := by
  refine ⟨?_, ?_, ?_⟩
  · intro h
    simp only [computeScores, highLowBalanceScore]
    rw [if_neg]
    rw [h]
    exact lt_irrefl 0
  · intro h0l h0h hne
    have hpos : 0 <
        (calculateStats s.lowFreqEnergies).mean + (calculateStats s.highFreqEnergies).mean :=
      lt_of_le_of_ne (add_nonneg h0l h0h) (Ne.symm hne)
    simp only [computeScores, highLowBalanceScore]
    rw [if_pos hpos]
  · intro es sampleRate audio
    constructor
    · intro x hx
      rw [collectLow_eq_map] at hx
      obtain ⟨i, -, rfl⟩ := List.mem_map.mp hx
      exact bandSplit_fst_nonneg _
    · intro x hx
      rw [collectHigh_eq_map] at hx
      obtain ⟨i, -, rfl⟩ := List.mem_map.mp hx
      exact bandSplit_snd_nonneg _

/-- The series record of a run whose band-energy means are `1` (low) and
`3` (high). -/
def sHL : SeriesData := { lowFreqEnergies := [1], highFreqEnergies := [3] }

/-- Witness for C9: with means `1` and `3` the balance is the clamped ratio
(namely `75`). -/
theorem claim9_witness :
    (computeScores sHL).highLowBalance =
      min 100 (max 0 ((calculateStats sHL.highFreqEnergies).mean /
        ((calculateStats sHL.lowFreqEnergies).mean +
          (calculateStats sHL.highFreqEnergies).mean) * 100)) :=
  (claim9_highLowBalance sHL).2.1 (by norm_num [sHL, calculateStats])
    (by norm_num [sHL, calculateStats]) (by norm_num [sHL, calculateStats])

